import Mathlib

/-!
Verification of the rental sale calculator core.

This file shallowly embeds the two algorithmic modules of the repository:

* `src/lib/sellDecision.ts` (keep-vs-sell decision engine), embedded over exact
  rationals `ℚ`.  In `sellDecision.ts` every numeric input is consumed through
  `safeNumber` (a `Number.isFinite` guard); over `ℚ` every value is finite, so
  `safeNumber` is the identity and is elided in that embedding.  All `Math.pow`
  call sites of that module take non-negative integer exponents (loop indices
  and month counts), so `Monoid.npow` on `ℚ` is a faithful model.
* `src/lib/rentalVerdict.ts` (mortgage and investment-verdict engine).  The
  mortgage part uses `Math.pow` with a fractional exponent (Canadian
  semi-annual compounding), so it is embedded over `ℝ` with `Real.rpow`;
  its possibly non-finite numeric inputs are modelled as `Option ℝ`, where
  `none` stands for a non-finite value (`NaN`, `±Infinity`) and `safeNumber`
  coerces it to `0`, exactly as in the source.  `calculateInvestment` only
  uses field arithmetic and is embedded over `ℚ`.

JavaScript `Math.round x` is `⌊x + 1/2⌋` (round half up), modelled by
`jsRound` / `jsRoundR`.
-/

namespace SellDecision

/-- Inputs of `calculateDecision` (`sellDecision.ts`, lines 1-20).
All percentage fields use 0-100 semantics exactly as in the source. -/
structure DecisionInputs where
  currentPropertyValue : ℚ
  currentPropertyAcb : ℚ
  currentMortgageBalance : ℚ
  currentCapRate : ℚ
  currentGrowthRate : ℚ
  newCapRate : ℚ
  newGrowthRate : ℚ
  marginalTaxRate : ℚ
  capitalGainsInclusionRate : ℚ
  realtorFeesPercent : ℚ
  propertyTransferTaxPercent : ℚ
  investmentAccountRoi : ℚ
  loanRate : ℚ
  loanAmortizationYears : ℚ
  clientAge : ℚ
  planningAge : ℚ
  newLoanToValue : ℚ
  decisionMarginPercent : ℚ

/-- One simulated year for one strategy (`sellDecision.ts`, lines 22-32). -/
structure YearlySnapshot where
  age : ℤ
  propertyValue : ℚ
  mortgageBalance : ℚ
  netIncome : ℚ
  taxPayable : ℚ
  cashFlow : ℚ
  investmentAccount : ℚ
  strategyValue : ℚ
  capitalGainsTax : ℚ
deriving DecidableEq

/-- One element of the result's `series` array (`sellDecision.ts`, lines 46-51). -/
structure SeriesPoint where
  age : ℤ
  currentValue : ℚ
  newValue : ℚ
  delta : ℚ
deriving DecidableEq

/-- The YES/NO recommendation. -/
inductive Decision where
  | yes
  | no
deriving DecidableEq

/-- Result record of `calculateDecision` (`sellDecision.ts`, lines 34-52).
The `decisionReason` field is a locale-formatted display string
(`toLocaleString`) and is presentation-only; it is not modelled. -/
structure DecisionResult where
  decision : Decision
  marginPercent : ℚ
  planningAge : ℤ
  currentAtPlanning : YearlySnapshot
  newAtPlanning : YearlySnapshot
  breakEvenAge : Option ℤ
  peakDeltaAge : Option ℤ
  peakDeltaValue : ℚ
  currentSeries : List YearlySnapshot
  newSeries : List YearlySnapshot
  series : List SeriesPoint

/-- JavaScript `Math.round` on a finite value: round half toward positive. -/
def jsRound (x : ℚ) : ℤ := ⌊x + 1 / 2⌋

/-- JavaScript `Math.max` on two finite rationals. -/
def jsMax (a b : ℚ) : ℚ := if a ≤ b then b else a

/-- JavaScript `Math.max` on rounded (integer) values. -/
def jsMaxZ (a b : ℤ) : ℤ := if a ≤ b then b else a

/-- `calculateMonthlyPayment` (`sellDecision.ts`, lines 56-64). -/
def calculateMonthlyPayment (loanAmount annualRate termYears : ℚ) : ℚ :=
  let principal := loanAmount
  if principal ≤ 0 then 0
  else
    let months : ℤ := jsMaxZ 1 (jsRound (termYears * 12))
    let monthlyRate := annualRate / 100 / 12
    if monthlyRate ≤ 0 then principal / (months : ℚ)
    else
      let factor := (1 + monthlyRate) ^ months.toNat
      principal * monthlyRate * factor / (factor - 1)

/-- `futureValue` (`sellDecision.ts`, lines 66-81), the Excel-style FV closed
form with annual compounding.  Both call sites pass the loop's year index, a
non-negative integer, as `years`, and the literal `1` as `type`. -/
def futureValue (annualRate : ℚ) (years : ℕ) (annualPayment presentValue ty : ℚ) : ℚ :=
  let rate := annualRate / 100
  if years = 0 then -presentValue
  else if rate = 0 then -(presentValue + annualPayment * (years : ℚ))
  else
    let factor := (1 + rate) ^ years;
    -(presentValue * factor + annualPayment * (1 + rate * ty) * ((factor - 1) / rate))

/-- `buildMortgageBalances` (`sellDecision.ts`, lines 83-100): the list of
year-indexed balances together with the constant annual debt service. -/
def buildMortgageBalances (startingBalance annualRate termYears : ℚ) (years : ℕ) :
    List ℚ × ℚ :=
  let balance := jsMax 0 startingBalance
  let monthlyPayment := calculateMonthlyPayment balance annualRate termYears
  let annualPayment := monthlyPayment * 12
  ((List.range years).map fun year =>
      jsMax 0 (-futureValue annualRate year (-annualPayment) balance 1),
    annualPayment)

/-- `capitalGainsTax` (`sellDecision.ts`, lines 102-110). -/
def capitalGainsTax (value acb inclusionRate taxRate : ℚ) : ℚ :=
  (value - acb) * (inclusionRate / 100) * (taxRate / 100)

/-- `clientAge` local of `calculateDecision` (line 113). -/
def clientAgeZ (i : DecisionInputs) : ℤ := jsRound i.clientAge

/-- `planningAge` local of `calculateDecision` (line 114): clamped to the
rounded client age. -/
def planningAgeZ (i : DecisionInputs) : ℤ := jsMaxZ (clientAgeZ i) (jsRound i.planningAge)

/-- `years` local of `calculateDecision` (line 115); always at least 1. -/
def yearsN (i : DecisionInputs) : ℕ := (planningAgeZ i - clientAgeZ i + 1).toNat

/-- `currentBalances` (lines 117-122). -/
def currentBalancesP (i : DecisionInputs) : List ℚ × ℚ :=
  buildMortgageBalances i.currentMortgageBalance i.loanRate i.loanAmortizationYears (yearsN i)

/-- `initialCapitalGainsTax` (lines 124-129). -/
def initialCapitalGainsTaxQ (i : DecisionInputs) : ℚ :=
  capitalGainsTax i.currentPropertyValue i.currentPropertyAcb
    i.capitalGainsInclusionRate i.marginalTaxRate

/-- `saleCosts` (lines 131-133). -/
def saleCostsQ (i : DecisionInputs) : ℚ :=
  ((i.realtorFeesPercent + i.propertyTransferTaxPercent) / 100) * i.currentPropertyValue

/-- `netSaleProceeds` (lines 134-140). -/
def netSaleProceedsQ (i : DecisionInputs) : ℚ :=
  jsMax 0 (i.currentPropertyValue - i.currentMortgageBalance -
    initialCapitalGainsTaxQ i - saleCostsQ i)

/-- `newLoanToValue` as a fraction (line 142). -/
def newLTVQ (i : DecisionInputs) : ℚ := i.newLoanToValue / 100

/-- `newPropertyValueStart` (lines 143-144). -/
def newPropertyValueStartQ (i : DecisionInputs) : ℚ :=
  if 1 ≤ newLTVQ i then 0 else netSaleProceedsQ i / (1 - newLTVQ i)

/-- `newMortgageStart` (line 145). -/
def newMortgageStartQ (i : DecisionInputs) : ℚ :=
  jsMax 0 (newPropertyValueStartQ i * newLTVQ i)

/-- `newBalances` (lines 147-152). -/
def newBalancesP (i : DecisionInputs) : List ℚ × ℚ :=
  buildMortgageBalances (newMortgageStartQ i) i.loanRate i.loanAmortizationYears (yearsN i)

/-- `investmentGrowth = 1 + afterTaxRoi` (lines 160-163). -/
def investmentGrowthQ (i : DecisionInputs) : ℚ :=
  1 + (i.investmentAccountRoi / 100) * (1 - i.marginalTaxRate / 100)

/-- `currentValue` at loop index `t` (lines 167-168). -/
def currentValueAt (i : DecisionInputs) (t : ℕ) : ℚ :=
  i.currentPropertyValue * (1 + i.currentGrowthRate / 100) ^ t

/-- `currentMortgage` at loop index `t` (line 169), with the `?? 0` fallback. -/
def currentMortgageAt (i : DecisionInputs) (t : ℕ) : ℚ :=
  (currentBalancesP i).1.getD t 0

/-- `currentNetIncome` at loop index `t` (line 170). -/
def currentNetIncomeAt (i : DecisionInputs) (t : ℕ) : ℚ :=
  (i.currentCapRate / 100) * currentValueAt i t

/-- `currentInterestExpense` at loop index `t` (line 171). -/
def currentInterestExpenseAt (i : DecisionInputs) (t : ℕ) : ℚ :=
  currentMortgageAt i t * (i.loanRate / 100)

/-- `currentTax` at loop index `t` (lines 172-174). -/
def currentTaxAt (i : DecisionInputs) (t : ℕ) : ℚ :=
  (currentNetIncomeAt i t - currentInterestExpenseAt i t) * (i.marginalTaxRate / 100)

/-- `currentCashFlow` at loop index `t` (lines 175-176). -/
def currentCashFlowAt (i : DecisionInputs) (t : ℕ) : ℚ :=
  currentNetIncomeAt i t - currentTaxAt i t - (currentBalancesP i).2

/-- The `currentInvestment` accumulator after `t` loop iterations
(line 177): starts at 0 and updates as `inv * growth + cashFlow`. -/
def currentInvestmentAfter (i : DecisionInputs) : ℕ → ℚ
  | 0 => 0
  | t + 1 => currentInvestmentAfter i t * investmentGrowthQ i + currentCashFlowAt i t

/-- `currentCapitalGainsTax` at loop index `t` (lines 178-183). -/
def currentCGTaxAt (i : DecisionInputs) (t : ℕ) : ℚ :=
  capitalGainsTax (currentValueAt i t) i.currentPropertyAcb
    i.capitalGainsInclusionRate i.marginalTaxRate

/-- `currentStrategyValue` at loop index `t` (lines 184-185). -/
def currentStrategyValueAt (i : DecisionInputs) (t : ℕ) : ℚ :=
  currentValueAt i t - currentMortgageAt i t - currentCGTaxAt i t +
    currentInvestmentAfter i (t + 1)

/-- The keep-strategy snapshot pushed at loop index `t` (lines 198-208). -/
def currentSnapshotAt (i : DecisionInputs) (t : ℕ) : YearlySnapshot :=
  { age := clientAgeZ i + (t : ℤ)
    propertyValue := currentValueAt i t
    mortgageBalance := currentMortgageAt i t
    netIncome := currentNetIncomeAt i t
    taxPayable := currentTaxAt i t
    cashFlow := currentCashFlowAt i t
    investmentAccount := currentInvestmentAfter i (t + 1)
    strategyValue := currentStrategyValueAt i t
    capitalGainsTax := currentCGTaxAt i t }

/-- `newValue` at loop index `t` (lines 187-188). -/
def newValueAt (i : DecisionInputs) (t : ℕ) : ℚ :=
  newPropertyValueStartQ i * (1 + i.newGrowthRate / 100) ^ t

/-- `newMortgage` at loop index `t` (line 189). -/
def newMortgageAt (i : DecisionInputs) (t : ℕ) : ℚ :=
  (newBalancesP i).1.getD t 0

/-- `newNetIncome` at loop index `t` (line 190). -/
def newNetIncomeAt (i : DecisionInputs) (t : ℕ) : ℚ :=
  (i.newCapRate / 100) * newValueAt i t

/-- `newInterestExpense` at loop index `t` (line 191). -/
def newInterestExpenseAt (i : DecisionInputs) (t : ℕ) : ℚ :=
  newMortgageAt i t * (i.loanRate / 100)

/-- `newTax` at loop index `t` (lines 192-193). -/
def newTaxAt (i : DecisionInputs) (t : ℕ) : ℚ :=
  (newNetIncomeAt i t - newInterestExpenseAt i t) * (i.marginalTaxRate / 100)

/-- `newCashFlow` at loop index `t` (line 194). -/
def newCashFlowAt (i : DecisionInputs) (t : ℕ) : ℚ :=
  newNetIncomeAt i t - newTaxAt i t - (newBalancesP i).2

/-- The `newInvestment` accumulator after `t` loop iterations (line 195). -/
def newInvestmentAfter (i : DecisionInputs) : ℕ → ℚ
  | 0 => 0
  | t + 1 => newInvestmentAfter i t * investmentGrowthQ i + newCashFlowAt i t

/-- `newStrategyValue` at loop index `t` (line 196): no capital-gains
deduction for the replacement property. -/
def newStrategyValueAt (i : DecisionInputs) (t : ℕ) : ℚ :=
  newValueAt i t - newMortgageAt i t + newInvestmentAfter i (t + 1)

/-- The sell-strategy snapshot pushed at loop index `t` (lines 210-220);
its `capitalGainsTax` field is the literal 0. -/
def newSnapshotAt (i : DecisionInputs) (t : ℕ) : YearlySnapshot :=
  { age := clientAgeZ i + (t : ℤ)
    propertyValue := newValueAt i t
    mortgageBalance := newMortgageAt i t
    netIncome := newNetIncomeAt i t
    taxPayable := newTaxAt i t
    cashFlow := newCashFlowAt i t
    investmentAccount := newInvestmentAfter i (t + 1)
    strategyValue := newStrategyValueAt i t
    capitalGainsTax := 0 }

/-- `delta` of the series point at loop index `t` (line 226). -/
def deltaAt (i : DecisionInputs) (t : ℕ) : ℚ :=
  newStrategyValueAt i t - currentStrategyValueAt i t

/-- The series point pushed at loop index `t` (lines 222-227). -/
def seriesPointAt (i : DecisionInputs) (t : ℕ) : SeriesPoint :=
  { age := clientAgeZ i + (t : ℤ)
    currentValue := currentStrategyValueAt i t
    newValue := newStrategyValueAt i t
    delta := deltaAt i t }

/-- The `series` array produced by the simulation loop. -/
def seriesL (i : DecisionInputs) : List SeriesPoint :=
  (List.range (yearsN i)).map (seriesPointAt i)

/-- The `currentSnapshots` array produced by the simulation loop. -/
def currentSeriesL (i : DecisionInputs) : List YearlySnapshot :=
  (List.range (yearsN i)).map (currentSnapshotAt i)

/-- The `newSnapshots` array produced by the simulation loop. -/
def newSeriesL (i : DecisionInputs) : List YearlySnapshot :=
  (List.range (yearsN i)).map (newSnapshotAt i)

/-- `currentAtPlanning = currentSnapshots[planningIndex]` (lines 230-231);
`planningIndex = years - 1` is always in bounds since `years ≥ 1`. -/
def currentAtPlanningS (i : DecisionInputs) : YearlySnapshot :=
  currentSnapshotAt i (yearsN i - 1)

/-- `newAtPlanning = newSnapshots[planningIndex]` (line 232). -/
def newAtPlanningS (i : DecisionInputs) : YearlySnapshot :=
  newSnapshotAt i (yearsN i - 1)

/-- `threshold` (line 235). -/
def thresholdQ (i : DecisionInputs) : ℚ :=
  (currentAtPlanningS i).strategyValue * (1 + i.decisionMarginPercent / 100)

/-- `decision` (line 236). -/
def decisionD (i : DecisionInputs) : Decision :=
  if thresholdQ i ≤ (newAtPlanningS i).strategyValue then Decision.yes else Decision.no

/-- State of the `series.forEach` scan (lines 239-251).  `peakDeltaValue`
starts at `Number.NEGATIVE_INFINITY`, modelled by `none`. -/
structure ScanState where
  breakEvenAge : Option ℤ
  peakDeltaValue : Option ℚ
  peakDeltaAge : Option ℤ
deriving DecidableEq

/-- The comparison `point.delta > peakDeltaValue`, where a `none` peak is
`NEGATIVE_INFINITY` and hence below every finite delta. -/
def ltPeak (peak : Option ℚ) (delta : ℚ) : Bool :=
  match peak with
  | none => true
  | some v => decide (v < delta)

/-- One iteration of the `series.forEach` scan (lines 243-251). -/
def scanStep (s : ScanState) (p : SeriesPoint) : ScanState :=
  let s1 := if s.breakEvenAge = none ∧ 0 ≤ p.delta then
      { s with breakEvenAge := some p.age } else s
  if ltPeak s1.peakDeltaValue p.delta then
    { s1 with peakDeltaValue := some p.delta, peakDeltaAge := some p.age }
  else s1

/-- The whole scan over the series. -/
def scanS (i : DecisionInputs) : ScanState :=
  (seriesL i).foldl scanStep ⟨none, none, none⟩

/-- The scan state after the first `n` series points; `scanS i` is
`scanUpTo i (yearsN i)`. -/
def scanUpTo (i : DecisionInputs) (n : ℕ) : ScanState :=
  ((List.range n).map (seriesPointAt i)).foldl scanStep ⟨none, none, none⟩

/-- `calculateDecision` (`sellDecision.ts`, lines 112-280), assembled from
the components above.  The final `peakDeltaValue` applies the
`Number.isFinite` guard: a still-infinite peak (empty series) becomes 0. -/
def calculateDecision (i : DecisionInputs) : DecisionResult :=
  { decision := decisionD i
    marginPercent := i.decisionMarginPercent
    planningAge := planningAgeZ i
    currentAtPlanning := currentAtPlanningS i
    newAtPlanning := newAtPlanningS i
    breakEvenAge := (scanS i).breakEvenAge
    peakDeltaAge := (scanS i).peakDeltaAge
    peakDeltaValue := (scanS i).peakDeltaValue.getD 0
    currentSeries := currentSeriesL i
    newSeries := newSeriesL i
    series := seriesL i }

/-- A zero snapshot, used as the default value of out-of-bounds reads in
theorem statements (never actually hit: all reads are in bounds). -/
def dummySnap : YearlySnapshot := ⟨0, 0, 0, 0, 0, 0, 0, 0, 0⟩

/-- A zero series point, default for out-of-bounds reads in statements. -/
def dummyPoint : SeriesPoint := ⟨0, 0, 0, 0⟩

/-- Modelled from the spec: the Debt-Service Engine's monthly-convention
amortization trace (spec section 4.1).  The repository computes year-end
balances with the annual `futureValue` closed form instead; this definition
follows the spec's words — iterate month by month with
`interest = balance * r`, `principalPaid = max 0 (payment - interest)`,
`balance = max 0 (balance - principalPaid)` — with the monthly annuity
payment `calculateMonthlyPayment` at rate `annualRate/100/12`, so the two
can be compared.  `monthlyTraceBalance b r y k` is the balance after `k`
monthly periods. -/
def monthlyTraceBalance (startingBalance annualRate termYears : ℚ) : ℕ → ℚ
  | 0 => startingBalance
  | k + 1 =>
    let payment := calculateMonthlyPayment startingBalance annualRate termYears
    let r := annualRate / 100 / 12
    let b := monthlyTraceBalance startingBalance annualRate termYears k
    let interest := b * r
    let principalPaid := jsMax 0 (payment - interest)
    jsMax 0 (b - principalPaid)

/-- A small concrete input used by witnesses: a 65-year-old with an
all-zero portfolio and planning age 65 (single-year simulation). -/
def sampleInput : DecisionInputs :=
  ⟨0, 0, 0, 0, 0, 0, 0, 0, 0, 0, 0, 0, 0, 0, 65, 65, 0, 0⟩

/-- Concrete input exhibiting the divergence between the source's
annual-compounding balance formula and the spec's monthly amortization
trace: a 1000 mortgage at 60 percent annual rate amortized over 2 years,
simulated for ages 30-31. -/
def cexInputC3 : DecisionInputs :=
  ⟨0, 0, 1000, 0, 0, 0, 0, 0, 0, 0, 0, 0, 60, 2, 30, 31, 0, 0⟩

end SellDecision

namespace RentalVerdict

/-- `PaymentFrequency` (`rentalVerdict.ts`, lines 1-7). -/
inductive PaymentFrequency where
  | monthly
  | semiMonthly
  | biWeekly
  | weekly
  | acceleratedBiWeekly
  | acceleratedWeekly
deriving DecidableEq

/-- `MortgageInputs` (`rentalVerdict.ts`, lines 9-15).  Numeric fields are
`Option ℝ`: `some x` is a finite value, `none` a non-finite one
(`NaN`, `±Infinity`). -/
structure MortgageInputs where
  mortgageAmount : Option ℝ
  interestRate : Option ℝ
  amortizationYears : Option ℝ
  paymentFrequency : PaymentFrequency
  termYears : Option ℝ

/-- `safeNumber` (`rentalVerdict.ts`, line 43): non-finite values become 0. -/
def safeNumber (v : Option ℝ) : ℝ := v.getD 0

/-- `paymentsPerYear` (`rentalVerdict.ts`, lines 45-59). -/
def paymentsPerYear : PaymentFrequency → ℕ
  | .weekly | .acceleratedWeekly => 52
  | .biWeekly | .acceleratedBiWeekly => 26
  | .semiMonthly => 24
  | .monthly => 12

/-- JavaScript `Math.round` on a finite real: round half toward positive. -/
noncomputable def jsRoundR (x : ℝ) : ℤ := ⌊x + 1 / 2⌋

/-- `periodicRate` (`rentalVerdict.ts`, lines 61-67): Canadian semi-annual
compounding converted to the per-period rate.  `Math.pow` with the real
exponent `2 / perYear` is `Real.rpow`. -/
noncomputable def periodicRate (annualRate : Option ℝ) (frequency : PaymentFrequency) : ℝ :=
  let rate := safeNumber annualRate / 100
  let perYear := paymentsPerYear frequency
  if rate ≤ 0 then 0
  else
    let compoundPerYear : ℝ := 2
    (1 + rate / compoundPerYear) ^ (compoundPerYear / (perYear : ℝ)) - 1

/-- Result of `calculateMortgage` (`rentalVerdict.ts`, lines 75 and 100). -/
structure MortgageResult where
  payment : ℝ
  totalInterestTerm : ℝ
  balanceAfterTerm : ℝ

/-- `principal` local of `calculateMortgage` (line 70). -/
noncomputable def principalOf (input : MortgageInputs) : ℝ :=
  max 0 (safeNumber input.mortgageAmount)

/-- `periods` local of `calculateMortgage` (line 72). -/
noncomputable def periodsOf (input : MortgageInputs) : ℤ :=
  max 1 (jsRoundR (safeNumber input.amortizationYears *
    (paymentsPerYear input.paymentFrequency : ℝ)))

/-- `rate` local of `calculateMortgage` (line 73). -/
noncomputable def rateOf (input : MortgageInputs) : ℝ :=
  periodicRate input.interestRate input.paymentFrequency

/-- `basePayment` local of `calculateMortgage` (lines 78-79).  `Math.pow`
with the negative real exponent `-periods` is `Real.rpow`. -/
noncomputable def basePaymentOf (input : MortgageInputs) : ℝ :=
  if rateOf input = 0 then principalOf input / ((periodsOf input : ℤ) : ℝ)
  else principalOf input * rateOf input /
    (1 - (1 + rateOf input) ^ (-((periodsOf input : ℤ) : ℝ)))

/-- `payment` local of `calculateMortgage` (lines 81-86): the two
accelerated frequencies halve / quarter `basePayment`, every other
frequency keeps it. -/
noncomputable def paymentOf (input : MortgageInputs) : ℝ :=
  match input.paymentFrequency with
  | .acceleratedBiWeekly => basePaymentOf input / 2
  | .acceleratedWeekly => basePaymentOf input / 4
  | .monthly => basePaymentOf input
  | .semiMonthly => basePaymentOf input
  | .biWeekly => basePaymentOf input
  | .weekly => basePaymentOf input

/-- `termPeriods` local of `calculateMortgage` (line 88). -/
noncomputable def termPeriodsOf (input : MortgageInputs) : ℤ :=
  max 1 (jsRoundR (safeNumber input.termYears *
    (paymentsPerYear input.paymentFrequency : ℝ)))

/-- One iteration of the amortization loop (lines 92-98) on the state
`(balance, totalInterest)`.  The loop's `if (balance === 0) break` means
iterations after the balance reaches 0 never run, which is exactly the
`if s.1 = 0 then s` guard here. -/
noncomputable def amortStep (rate payment : ℝ) (s : ℝ × ℝ) : ℝ × ℝ :=
  if s.1 = 0 then s
  else (max 0 (s.1 - max 0 (payment - s.1 * rate)), s.2 + s.1 * rate)

/-- The amortization loop state after `n` iterations starting from `s`. -/
noncomputable def amortRun (rate payment : ℝ) (s : ℝ × ℝ) : ℕ → ℝ × ℝ
  | 0 => s
  | n + 1 => amortStep rate payment (amortRun rate payment s n)

/-- `calculateMortgage` (`rentalVerdict.ts`, lines 69-101). -/
noncomputable def calculateMortgage (input : MortgageInputs) : MortgageResult :=
  if principalOf input = 0 then ⟨0, 0, 0⟩
  else
    let final := amortRun (rateOf input) (paymentOf input)
      (principalOf input, 0) (termPeriodsOf input).toNat
    ⟨paymentOf input, final.2, final.1⟩

/-- `RentRange.source` (`rentalVerdict.ts`, line 21). -/
inductive RentSource where
  | webEstimate
  | providerEstimate
  | manual
deriving DecidableEq

/-- `RentRange` (`rentalVerdict.ts`, lines 17-22), over exact rationals:
`calculateInvestment` only uses field arithmetic, and every numeric input
passes through `safeNumber`, which is the identity on finite values. -/
structure RentRange where
  low : ℚ
  median : ℚ
  high : ℚ
  source : RentSource

/-- `ExpenseInputs` (`rentalVerdict.ts`, lines 24-33). -/
structure ExpenseInputs where
  vacancyPercent : ℚ
  maintenancePercent : ℚ
  managementPercent : ℚ
  reservesPercent : ℚ
  insuranceAnnual : ℚ
  utilitiesAnnual : ℚ
  hoaMonthly : ℚ
  propertyTaxAnnual : ℚ

/-- The three-valued investment verdict (`rentalVerdict.ts`, line 40). -/
inductive Verdict where
  | excellent
  | good
  | weak
deriving DecidableEq

/-- `InvestmentMetrics` (`rentalVerdict.ts`, lines 35-41). -/
structure InvestmentMetrics where
  noiAnnual : ℚ
  capRate : ℚ
  cashFlowAnnual : ℚ
  dscr : ℚ
  verdict : Verdict

/-- `calculateInvestment` (`rentalVerdict.ts`, lines 103-137).  The decimal
thresholds `0.045` and `0.03` are written `45/1000` and `3/100`. -/
def calculateInvestment (price : ℚ) (rentRange : RentRange) (expenses : ExpenseInputs)
    (mortgagePaymentAnnual : ℚ) : InvestmentMetrics :=
  let medianRent := rentRange.median
  let grossAnnual := medianRent * 12
  let vacancyLoss := grossAnnual * (expenses.vacancyPercent / 100)
  let effectiveIncome := grossAnnual - vacancyLoss
  let management := effectiveIncome * (expenses.managementPercent / 100)
  let maintenance := effectiveIncome * (expenses.maintenancePercent / 100)
  let reserves := effectiveIncome * (expenses.reservesPercent / 100)
  let hoa := expenses.hoaMonthly * 12
  let operatingExpenses := management + maintenance + reserves +
    expenses.insuranceAnnual + expenses.utilitiesAnnual + expenses.propertyTaxAnnual + hoa
  let noi := effectiveIncome - operatingExpenses
  let capRate := if 0 < price then noi / price else 0
  let cashFlow := noi - mortgagePaymentAnnual
  let dscr := if 0 < mortgagePaymentAnnual then noi / mortgagePaymentAnnual else 0
  let verdict := if 45 / 1000 ≤ capRate then Verdict.excellent
    else if 3 / 100 ≤ capRate then Verdict.good
    else Verdict.weak
  ⟨noi, capRate, cashFlow, dscr, verdict⟩

end RentalVerdict

namespace SellDecision

theorem jsMax_eq_max (a b : ℚ) : jsMax a b = max a b := (max_def a b).symm

theorem jsMaxZ_eq_max (a b : ℤ) : jsMaxZ a b = max a b := (max_def a b).symm

theorem clientAge_le_planningAge (i : DecisionInputs) : clientAgeZ i ≤ planningAgeZ i := by
  rw [planningAgeZ, jsMaxZ_eq_max]
  exact le_max_left _ _

theorem yearsN_cast (i : DecisionInputs) :
    (yearsN i : ℤ) = planningAgeZ i - clientAgeZ i + 1 := by
  have h := clientAge_le_planningAge i
  rw [yearsN, Int.toNat_of_nonneg (by omega)]

theorem one_le_yearsN (i : DecisionInputs) : 1 ≤ yearsN i := by
  have h := clientAge_le_planningAge i
  have h2 := yearsN_cast i
  omega

theorem getD_map_range {α : Type} (f : ℕ → α) (d : α) {n k : ℕ} (h : k < n) :
    ((List.range n).map f).getD k d = f k := by
  rw [List.getD_eq_getElem?_getD]
  simp [List.getElem?_map, List.getElem?_range h]

theorem seriesPointAt_delta (i : DecisionInputs) (t : ℕ) :
    (seriesPointAt i t).delta = deltaAt i t := rfl

theorem seriesPointAt_age (i : DecisionInputs) (t : ℕ) :
    (seriesPointAt i t).age = clientAgeZ i + (t : ℤ) := rfl

theorem scanStep_char (s : ScanState) (p : SeriesPoint) :
    scanStep s p =
      if ltPeak s.peakDeltaValue p.delta then
        ⟨if s.breakEvenAge = none ∧ 0 ≤ p.delta then some p.age else s.breakEvenAge,
          some p.delta, some p.age⟩
      else
        ⟨if s.breakEvenAge = none ∧ 0 ≤ p.delta then some p.age else s.breakEvenAge,
          s.peakDeltaValue, s.peakDeltaAge⟩ := by
  by_cases h1 : s.breakEvenAge = none ∧ 0 ≤ p.delta <;>
    by_cases h2 : ltPeak s.peakDeltaValue p.delta = true <;>
      simp [scanStep, h1, h2]

theorem scanStep_breakEvenAge (s : ScanState) (p : SeriesPoint) :
    (scanStep s p).breakEvenAge =
      if s.breakEvenAge = none ∧ 0 ≤ p.delta then some p.age else s.breakEvenAge := by
  rw [scanStep_char]
  by_cases h2 : ltPeak s.peakDeltaValue p.delta = true <;> simp [h2]

theorem scanStep_peakDeltaValue (s : ScanState) (p : SeriesPoint) :
    (scanStep s p).peakDeltaValue =
      if ltPeak s.peakDeltaValue p.delta then some p.delta else s.peakDeltaValue := by
  rw [scanStep_char]
  by_cases h2 : ltPeak s.peakDeltaValue p.delta = true <;> simp [h2]

theorem scanStep_peakDeltaAge (s : ScanState) (p : SeriesPoint) :
    (scanStep s p).peakDeltaAge =
      if ltPeak s.peakDeltaValue p.delta then some p.age else s.peakDeltaAge := by
  rw [scanStep_char]
  by_cases h2 : ltPeak s.peakDeltaValue p.delta = true <;> simp [h2]

theorem scanUpTo_succ (i : DecisionInputs) (n : ℕ) :
    scanUpTo i (n + 1) = scanStep (scanUpTo i n) (seriesPointAt i n) := by
  unfold scanUpTo
  rw [List.range_succ, List.map_append, List.foldl_append]
  rfl

theorem scanS_eq_scanUpTo (i : DecisionInputs) : scanS i = scanUpTo i (yearsN i) := rfl

theorem scanUpTo_breakEven (i : DecisionInputs) (n : ℕ) :
    ((scanUpTo i n).breakEvenAge = none ∧ ∀ j, j < n → deltaAt i j < 0) ∨
      (∃ k, k < n ∧ (scanUpTo i n).breakEvenAge = some (clientAgeZ i + (k : ℤ)) ∧
        0 ≤ deltaAt i k ∧ ∀ j, j < k → deltaAt i j < 0) := by
  induction n with
  | zero => exact Or.inl ⟨rfl, fun j hj => absurd hj (Nat.not_lt_zero j)⟩
  | succ n ih =>
    rw [scanUpTo_succ, scanStep_breakEvenAge, seriesPointAt_delta, seriesPointAt_age]
    rcases ih with ⟨hnone, hneg⟩ | ⟨k, hk, hsome, hge, hneg⟩
    · by_cases hd : 0 ≤ deltaAt i n
      · rw [if_pos ⟨hnone, hd⟩]
        exact Or.inr ⟨n, Nat.lt_succ_self n, rfl, hd, hneg⟩
      · rw [if_neg fun h => hd h.2]
        refine Or.inl ⟨hnone, fun j hj => ?_⟩
        rcases Nat.lt_succ_iff_lt_or_eq.mp hj with h | h
        · exact hneg j h
        · subst h; exact lt_of_not_le hd
    · rw [if_neg fun h => by rw [hsome] at h; exact Option.some_ne_none _ h.1]
      exact Or.inr ⟨k, Nat.lt_succ_of_lt hk, hsome, hge, hneg⟩

theorem scanUpTo_peak (i : DecisionInputs) (n : ℕ) (hn : 1 ≤ n) :
    ∃ k, k < n ∧ (scanUpTo i n).peakDeltaValue = some (deltaAt i k) ∧
      (scanUpTo i n).peakDeltaAge = some (clientAgeZ i + (k : ℤ)) ∧
      (∀ j, j < n → deltaAt i j ≤ deltaAt i k) ∧
      ∀ j, j < k → deltaAt i j < deltaAt i k := by
  induction n with
  | zero => omega
  | succ n ih =>
    rcases Nat.eq_zero_or_pos n with h0 | hpos
    · subst h0
      rw [scanUpTo_succ, scanStep_peakDeltaValue, scanStep_peakDeltaAge,
        seriesPointAt_delta, seriesPointAt_age]
      have hlt : ltPeak (scanUpTo i 0).peakDeltaValue (deltaAt i 0) = true := rfl
      rw [if_pos hlt, if_pos hlt]
      refine ⟨0, Nat.one_pos, rfl, rfl, fun j hj => ?_, fun j hj => absurd hj (Nat.not_lt_zero j)⟩
      have : j = 0 := by omega
      subst this; exact le_refl _
    · obtain ⟨k, hk, hval, hage, hub, hstrict⟩ := ih hpos
      rw [scanUpTo_succ, scanStep_peakDeltaValue, scanStep_peakDeltaAge,
        seriesPointAt_delta, seriesPointAt_age, hval]
      by_cases hd : deltaAt i k < deltaAt i n
      · have hlt : ltPeak (some (deltaAt i k)) (deltaAt i n) = true := by
          simp [ltPeak, hd]
        rw [if_pos hlt, if_pos hlt]
        refine ⟨n, Nat.lt_succ_self n, rfl, rfl, fun j hj => ?_, fun j hj => ?_⟩
        · rcases Nat.lt_succ_iff_lt_or_eq.mp hj with h | h
          · exact le_of_lt (lt_of_le_of_lt (hub j h) hd)
          · subst h; exact le_refl _
        · exact lt_of_le_of_lt (hub j hj) hd
      · have hlt : ¬ ltPeak (some (deltaAt i k)) (deltaAt i n) = true := by
          simp [ltPeak]
          exact le_of_not_lt hd
        rw [if_neg hlt, if_neg hlt]
        refine ⟨k, Nat.lt_succ_of_lt hk, rfl, hage, fun j hj => ?_, hstrict⟩
        rcases Nat.lt_succ_iff_lt_or_eq.mp hj with h | h
        · exact hub j h
        · subst h; exact le_of_not_lt hd

end SellDecision

namespace SellDecision

set_option maxRecDepth 10000

/-- Claim C2: `calculateDecision` returns YES exactly when the sell
strategy's estate value at the planning age is at least the keep strategy's
estate value at the planning age multiplied by
`1 + decisionMarginPercent / 100`, and NO otherwise. -/
theorem claim_C2 (i : DecisionInputs) :
    ((calculateDecision i).decision = Decision.yes ↔
      currentStrategyValueAt i (yearsN i - 1) * (1 + i.decisionMarginPercent / 100) ≤
        newStrategyValueAt i (yearsN i - 1)) ∧
    ((calculateDecision i).decision = Decision.no ↔
      ¬ currentStrategyValueAt i (yearsN i - 1) * (1 + i.decisionMarginPercent / 100) ≤
        newStrategyValueAt i (yearsN i - 1)) := by
  have hd : (calculateDecision i).decision = decisionD i := rfl
  have hth : thresholdQ i =
      currentStrategyValueAt i (yearsN i - 1) * (1 + i.decisionMarginPercent / 100) := rfl
  have hnew : (newAtPlanningS i).strategyValue = newStrategyValueAt i (yearsN i - 1) := rfl
  rw [hd]
  unfold decisionD
  rw [hth, hnew]
  by_cases h : currentStrategyValueAt i (yearsN i - 1) * (1 + i.decisionMarginPercent / 100) ≤
      newStrategyValueAt i (yearsN i - 1)
  · rw [if_pos h]
    constructor <;> simp [h]
  · rw [if_neg h]
    constructor <;> simp [h]

/-- Claim C4: `calculateDecision` clamps the planning age to at least the
rounded client age; `currentSeries`, `newSeries` and `series` each have
exactly `planningAge - clientAge + 1` entries with consecutive ages from
the client age to the clamped planning age inclusive, and exactly one
entry when the requested planning age does not exceed the client age. -/
theorem claim_C4 (i : DecisionInputs) :
    clientAgeZ i ≤ (calculateDecision i).planningAge ∧
    (calculateDecision i).planningAge = jsMaxZ (clientAgeZ i) (jsRound i.planningAge) ∧
    ((calculateDecision i).currentSeries.length : ℤ) =
      (calculateDecision i).planningAge - clientAgeZ i + 1 ∧
    (calculateDecision i).newSeries.length = (calculateDecision i).currentSeries.length ∧
    (calculateDecision i).series.length = (calculateDecision i).currentSeries.length ∧
    (∀ k, k < (calculateDecision i).series.length →
      ((calculateDecision i).currentSeries.getD k dummySnap).age = clientAgeZ i + (k : ℤ) ∧
      ((calculateDecision i).newSeries.getD k dummySnap).age = clientAgeZ i + (k : ℤ) ∧
      ((calculateDecision i).series.getD k dummyPoint).age = clientAgeZ i + (k : ℤ)) ∧
    ((calculateDecision i).series.getD ((calculateDecision i).series.length - 1)
        dummyPoint).age = (calculateDecision i).planningAge ∧
    (jsRound i.planningAge ≤ clientAgeZ i → (calculateDecision i).series.length = 1) := by
  have hplan : (calculateDecision i).planningAge = planningAgeZ i := rfl
  have hcur : (calculateDecision i).currentSeries =
      (List.range (yearsN i)).map (currentSnapshotAt i) := rfl
  have hnew : (calculateDecision i).newSeries =
      (List.range (yearsN i)).map (newSnapshotAt i) := rfl
  have hser : (calculateDecision i).series =
      (List.range (yearsN i)).map (seriesPointAt i) := rfl
  have hclen : (calculateDecision i).currentSeries.length = yearsN i := by
    rw [hcur]; simp
  have hnlen : (calculateDecision i).newSeries.length = yearsN i := by
    rw [hnew]; simp
  have hslen : (calculateDecision i).series.length = yearsN i := by
    rw [hser]; simp
  have hycast := yearsN_cast i
  have hle := clientAge_le_planningAge i
  have hy1 := one_le_yearsN i
  refine ⟨by rw [hplan]; exact hle, hplan, ?_, ?_, ?_, ?_, ?_, ?_⟩
  · rw [hclen, hplan]; omega
  · rw [hclen, hnlen]
  · rw [hclen, hslen]
  · intro k hk
    rw [hslen] at hk
    rw [hcur, hnew, hser, getD_map_range _ _ hk, getD_map_range _ _ hk,
      getD_map_range _ _ hk]
    exact ⟨rfl, rfl, rfl⟩
  · rw [hslen, hser, getD_map_range _ _ (by omega : yearsN i - 1 < yearsN i)]
    rw [seriesPointAt_age, hplan]
    have : ((yearsN i - 1 : ℕ) : ℤ) = (yearsN i : ℤ) - 1 := by omega
    rw [this]; omega
  · intro h
    rw [hslen]
    have : planningAgeZ i = clientAgeZ i := by
      rw [planningAgeZ, jsMaxZ_eq_max]; omega
    omega

/-- Claim C5: a non-null `breakEvenAge` is the age of a series entry whose
delta is non-negative while every earlier entry's delta is negative, and it
lies between the client age and the planning age; `breakEvenAge` is null
exactly when every delta in the series is negative. -/
theorem claim_C5 (i : DecisionInputs) :
    (∀ b, (calculateDecision i).breakEvenAge = some b →
      ∃ k, k < yearsN i ∧ b = clientAgeZ i + (k : ℤ) ∧
        clientAgeZ i ≤ b ∧ b ≤ (calculateDecision i).planningAge ∧
        0 ≤ deltaAt i k ∧ ∀ j, j < k → deltaAt i j < 0) ∧
    ((calculateDecision i).breakEvenAge = none ↔
      ∀ k, k < yearsN i → deltaAt i k < 0) := by
  have hbe : (calculateDecision i).breakEvenAge = (scanUpTo i (yearsN i)).breakEvenAge := rfl
  have hplan : (calculateDecision i).planningAge = planningAgeZ i := rfl
  have hycast := yearsN_cast i
  rcases scanUpTo_breakEven i (yearsN i) with ⟨hnone, hneg⟩ | ⟨k, hk, hsome, hge, hneg⟩
  · constructor
    · intro b hb
      rw [hbe, hnone] at hb
      cases hb
    · rw [hbe, hnone]
      exact ⟨fun _ => hneg, fun _ => rfl⟩
  · constructor
    · intro b hb
      rw [hbe, hsome] at hb
      obtain rfl : clientAgeZ i + (k : ℤ) = b := Option.some.inj hb
      have hkz : (k : ℤ) < (yearsN i : ℤ) := Int.ofNat_lt.mpr hk
      refine ⟨k, hk, rfl, by omega, by rw [hplan]; omega, hge, hneg⟩
    · rw [hbe, hsome]
      constructor
      · intro h; cases h
      · intro hall
        exact absurd (hall k hk) (not_lt.mpr hge)

/-- Claim C6: `peakDeltaValue` is the maximum series delta (new minus
current strategy value) and `peakDeltaAge` is the first age at which that
maximum is attained. -/
theorem claim_C6 (i : DecisionInputs) :
    ∃ k, k < yearsN i ∧
      (calculateDecision i).peakDeltaValue = deltaAt i k ∧
      (calculateDecision i).peakDeltaAge = some (clientAgeZ i + (k : ℤ)) ∧
      (∀ j, j < yearsN i → deltaAt i j ≤ deltaAt i k) ∧
      ∀ j, j < k → deltaAt i j < deltaAt i k := by
  obtain ⟨k, hk, hval, hage, hub, hstrict⟩ := scanUpTo_peak i (yearsN i) (one_le_yearsN i)
  refine ⟨k, hk, ?_, ?_, hub, hstrict⟩
  · have h : (calculateDecision i).peakDeltaValue =
        (scanUpTo i (yearsN i)).peakDeltaValue.getD 0 := rfl
    rw [h, hval]
    rfl
  · have h : (calculateDecision i).peakDeltaAge = (scanUpTo i (yearsN i)).peakDeltaAge := rfl
    rw [h, hage]

/-- Claim C3 (amended): the keep-strategy snapshot's mortgage balance at
index `t` is the clamped annual-compounding annuity-due closed form
`max 0 (-futureValue)` evaluated at year `t` with annual payment 12 times
the monthly annuity payment, and the constant annual debt service is 12
times that monthly payment. -/
theorem claim_C3_thm (i : DecisionInputs) (t : ℕ) (ht : t < yearsN i) :
    ((calculateDecision i).currentSeries.getD t dummySnap).mortgageBalance =
      jsMax 0 (-futureValue i.loanRate t
        (-(calculateMonthlyPayment (jsMax 0 i.currentMortgageBalance) i.loanRate
            i.loanAmortizationYears * 12))
        (jsMax 0 i.currentMortgageBalance) 1) ∧
    (currentBalancesP i).2 =
      calculateMonthlyPayment (jsMax 0 i.currentMortgageBalance) i.loanRate
        i.loanAmortizationYears * 12 := by
  constructor
  · have h1 : (calculateDecision i).currentSeries =
        (List.range (yearsN i)).map (currentSnapshotAt i) := rfl
    rw [h1, getD_map_range _ _ ht]
    have h2 : (currentSnapshotAt i t).mortgageBalance = (currentBalancesP i).1.getD t 0 := rfl
    have h3 : (currentBalancesP i).1 = (List.range (yearsN i)).map fun year =>
        jsMax 0 (-futureValue i.loanRate year
          (-(calculateMonthlyPayment (jsMax 0 i.currentMortgageBalance) i.loanRate
              i.loanAmortizationYears * 12))
          (jsMax 0 i.currentMortgageBalance) 1) := rfl
    rw [h2, h3, getD_map_range _ _ ht]
  · rfl

/-- Counterexample to claim C3 as stated: at `cexInputC3` the year-1
keep-strategy mortgage balance produced by the code's annual-compounding
`futureValue` formula differs from the spec's monthly-convention
amortization trace after 12 monthly periods. -/
theorem claim_C3_cex :
    ((calculateDecision cexInputC3).currentSeries.getD 1 dummySnap).mortgageBalance ≠
      monthlyTraceBalance 1000 60 2 12 := by
  with_unfolding_all decide

/-- Witness for claim C3's amended theorem at a concrete input. -/
theorem claim_C3_witness :
    ((calculateDecision sampleInput).currentSeries.getD 0 dummySnap).mortgageBalance =
      jsMax 0 (-futureValue sampleInput.loanRate 0
        (-(calculateMonthlyPayment (jsMax 0 sampleInput.currentMortgageBalance)
            sampleInput.loanRate sampleInput.loanAmortizationYears * 12))
        (jsMax 0 sampleInput.currentMortgageBalance) 1) ∧
    (currentBalancesP sampleInput).2 =
      calculateMonthlyPayment (jsMax 0 sampleInput.currentMortgageBalance)
        sampleInput.loanRate sampleInput.loanAmortizationYears * 12 :=
  claim_C3_thm sampleInput 0 (by with_unfolding_all decide)

/-- Witness for claim C4 at a concrete input. -/
theorem claim_C4_witness :
    ((calculateDecision sampleInput).currentSeries.getD 0 dummySnap).age =
      clientAgeZ sampleInput + (0 : ℤ) ∧
    (calculateDecision sampleInput).series.length = 1 := by
  obtain ⟨h1, h2, h3, h4, h5, h6, h7, h8⟩ := claim_C4 sampleInput
  exact ⟨(h6 0 (by with_unfolding_all decide)).1, h8 (by with_unfolding_all decide)⟩

/-- Witness for claim C5 at a concrete input whose break-even age is the
client age itself. -/
theorem claim_C5_witness :
    ∃ k, k < yearsN sampleInput ∧ (65 : ℤ) = clientAgeZ sampleInput + (k : ℤ) ∧
      clientAgeZ sampleInput ≤ 65 ∧
      (65 : ℤ) ≤ (calculateDecision sampleInput).planningAge ∧
      0 ≤ deltaAt sampleInput k ∧ ∀ j, j < k → deltaAt sampleInput j < 0 :=
  (claim_C5 sampleInput).1 65 (by with_unfolding_all decide)

/-- Witness for claim C6 at a concrete input. -/
theorem claim_C6_witness :
    ∃ k, k < yearsN sampleInput ∧
      (calculateDecision sampleInput).peakDeltaValue = deltaAt sampleInput k ∧
      (calculateDecision sampleInput).peakDeltaAge =
        some (clientAgeZ sampleInput + (k : ℤ)) ∧
      (∀ j, j < yearsN sampleInput → deltaAt sampleInput j ≤ deltaAt sampleInput k) ∧
      ∀ j, j < k → deltaAt sampleInput j < deltaAt sampleInput k :=
  claim_C6 sampleInput

end SellDecision

namespace RentalVerdict

theorem amortStep_fst (rate payment : ℝ) (s : ℝ × ℝ) :
    (amortStep rate payment s).1 =
      if s.1 = 0 then s.1 else max 0 (s.1 - max 0 (payment - s.1 * rate)) := by
  unfold amortStep
  split <;> rfl

theorem amortStep_snd (rate payment : ℝ) (s : ℝ × ℝ) :
    (amortStep rate payment s).2 =
      if s.1 = 0 then s.2 else s.2 + s.1 * rate := by
  unfold amortStep
  split <;> rfl

theorem amortRun_snd_zero_rate (payment : ℝ) :
    ∀ (n : ℕ) (b ti : ℝ), (amortRun 0 payment (b, ti) n).2 = ti := by
  intro n
  induction n with
  | zero => intro b ti; rfl
  | succ n ih =>
    intro b ti
    simp only [amortRun]
    rw [amortStep_snd]
    split
    · exact ih b ti
    · rw [mul_zero, add_zero]
      exact ih b ti

theorem amortRun_fst_const (rate payment b : ℝ) (hb0 : 0 < b)
    (hpay : payment ≤ b * rate) :
    ∀ (n : ℕ) (ti : ℝ), (amortRun rate payment (b, ti) n).1 = b := by
  intro n
  induction n with
  | zero => intro ti; rfl
  | succ n ih =>
    intro ti
    simp only [amortRun]
    rw [amortStep_fst, ih ti, if_neg hb0.ne',
      max_eq_left (sub_nonpos.mpr hpay), sub_zero, max_eq_right hb0.le]

theorem periodicRate_nonpos (annualRate : Option ℝ) (f : PaymentFrequency)
    (h : safeNumber annualRate ≤ 0) : periodicRate annualRate f = 0 := by
  unfold periodicRate
  rw [if_pos (by linarith)]

/-- Shared evaluation of `calculateMortgage` at zero interest rate:
zero total interest and the base payment `principal / periods`, halved or
quartered for the two accelerated frequencies. -/
theorem mortgage_zero_rate (input : MortgageInputs)
    (hr : safeNumber input.interestRate = 0)
    (hp : 0 < safeNumber input.mortgageAmount) :
    (calculateMortgage input).totalInterestTerm = 0 ∧
    (calculateMortgage input).payment =
      (match input.paymentFrequency with
        | PaymentFrequency.acceleratedBiWeekly =>
            safeNumber input.mortgageAmount / ((periodsOf input : ℤ) : ℝ) / 2
        | PaymentFrequency.acceleratedWeekly =>
            safeNumber input.mortgageAmount / ((periodsOf input : ℤ) : ℝ) / 4
        | _ => safeNumber input.mortgageAmount / ((periodsOf input : ℤ) : ℝ)) := by
  have hprin : principalOf input = safeNumber input.mortgageAmount :=
    max_eq_right hp.le
  have hpn0 : ¬ principalOf input = 0 := by
    rw [hprin]
    exact hp.ne'
  have hrate : rateOf input = 0 := periodicRate_nonpos _ _ (le_of_eq hr)
  have hbase : basePaymentOf input =
      safeNumber input.mortgageAmount / ((periodsOf input : ℤ) : ℝ) := by
    unfold basePaymentOf
    rw [if_pos hrate, hprin]
  have hcalc : calculateMortgage input =
      ⟨paymentOf input,
        (amortRun (rateOf input) (paymentOf input) (principalOf input, 0)
          (termPeriodsOf input).toNat).2,
        (amortRun (rateOf input) (paymentOf input) (principalOf input, 0)
          (termPeriodsOf input).toNat).1⟩ := by
    unfold calculateMortgage
    rw [if_neg hpn0]
  constructor
  · rw [hcalc]
    show (amortRun (rateOf input) (paymentOf input) (principalOf input, 0)
      (termPeriodsOf input).toNat).2 = 0
    rw [hrate]
    exact amortRun_snd_zero_rate _ _ _ _
  · rw [hcalc]
    show paymentOf input =
      (match input.paymentFrequency with
        | PaymentFrequency.acceleratedBiWeekly =>
            safeNumber input.mortgageAmount / ((periodsOf input : ℤ) : ℝ) / 2
        | PaymentFrequency.acceleratedWeekly =>
            safeNumber input.mortgageAmount / ((periodsOf input : ℤ) : ℝ) / 4
        | _ => safeNumber input.mortgageAmount / ((periodsOf input : ℤ) : ℝ))
    cases hf : input.paymentFrequency <;> simp [paymentOf, hf, hbase]

end RentalVerdict

namespace RentalVerdict

theorem periodsOf_concrete (ma ir ty : Option ℝ) (y : ℝ) (f : PaymentFrequency) (n : ℤ)
    (h1 : (1 : ℤ) ≤ n) (h2 : ⌊y * (paymentsPerYear f : ℝ) + 1 / 2⌋ = n) :
    periodsOf ⟨ma, ir, some y, f, ty⟩ = n := by
  unfold periodsOf jsRoundR safeNumber
  simp only [Option.getD_some]
  rw [h2]
  exact max_eq_right h1

theorem termPeriodsOf_concrete (ma ir ay : Option ℝ) (t : ℝ) (f : PaymentFrequency) (n : ℤ)
    (h1 : (1 : ℤ) ≤ n) (h2 : ⌊t * (paymentsPerYear f : ℝ) + 1 / 2⌋ = n) :
    termPeriodsOf ⟨ma, ir, ay, f, some t⟩ = n := by
  unfold termPeriodsOf jsRoundR safeNumber
  simp only [Option.getD_some]
  rw [h2]
  exact max_eq_right h1

/-- Claim C1 evaluated at the failing input: with zero rate, principal 1000
and 1 amortization year, the accelerated-bi-weekly payment is `1000 / 52`
(half of the bi-weekly base payment over 26 periods), while half of the
monthly-equivalent base payment — the payment the same inputs produce under
the monthly frequency — is `1000 / 24`, and the two differ. -/
theorem claim_C1_eval :
    (calculateMortgage ⟨some 1000, some 0, some 1,
        PaymentFrequency.acceleratedBiWeekly, some 1⟩).payment = 1000 / 52 ∧
    (calculateMortgage ⟨some 1000, some 0, some 1,
        PaymentFrequency.monthly, some 1⟩).payment / 2 = 1000 / 24 ∧
    (1000 / 52 : ℝ) ≠ 1000 / 24 := by
  have hper26 : periodsOf ⟨some 1000, some 0, some 1,
      PaymentFrequency.acceleratedBiWeekly, some 1⟩ = 26 := by
    refine periodsOf_concrete _ _ _ _ _ _ (by norm_num) ?_
    norm_num [paymentsPerYear, Int.floor_eq_iff]
  have hper12 : periodsOf ⟨some 1000, some 0, some 1,
      PaymentFrequency.monthly, some 1⟩ = 12 := by
    refine periodsOf_concrete _ _ _ _ _ _ (by norm_num) ?_
    norm_num [paymentsPerYear, Int.floor_eq_iff]
  obtain ⟨-, hpay1⟩ := mortgage_zero_rate
    ⟨some 1000, some 0, some 1, PaymentFrequency.acceleratedBiWeekly, some 1⟩
    rfl (by norm_num [safeNumber])
  obtain ⟨-, hpay2⟩ := mortgage_zero_rate
    ⟨some 1000, some 0, some 1, PaymentFrequency.monthly, some 1⟩
    rfl (by norm_num [safeNumber])
  refine ⟨?_, ?_, by norm_num⟩
  · rw [hpay1]
    show safeNumber (some (1000 : ℝ)) / ((periodsOf ⟨some 1000, some 0, some 1,
      PaymentFrequency.acceleratedBiWeekly, some 1⟩ : ℤ) : ℝ) / 2 = 1000 / 52
    rw [hper26]
    norm_num [safeNumber]
  · rw [hpay2]
    show safeNumber (some (1000 : ℝ)) / ((periodsOf ⟨some 1000, some 0, some 1,
      PaymentFrequency.monthly, some 1⟩ : ℤ) : ℝ) / 2 = 1000 / 24
    rw [hper12]
    norm_num [safeNumber]

/-- Counterexample to claim C7 as stated: at zero rate with the
accelerated-bi-weekly frequency the payment is `1000 / 52`, not
`principal / periods = 1000 / 26`. -/
theorem claim_C7_cex :
    (calculateMortgage ⟨some 1000, some 0, some 1,
        PaymentFrequency.acceleratedBiWeekly, some 1⟩).payment = 1000 / 52 ∧
    periodsOf ⟨some 1000, some 0, some 1,
        PaymentFrequency.acceleratedBiWeekly, some 1⟩ = 26 ∧
    (1000 / 52 : ℝ) ≠ 1000 / 26 := by
  have hper26 : periodsOf ⟨some 1000, some 0, some 1,
      PaymentFrequency.acceleratedBiWeekly, some 1⟩ = 26 := by
    refine periodsOf_concrete _ _ _ _ _ _ (by norm_num) ?_
    norm_num [paymentsPerYear, Int.floor_eq_iff]
  obtain ⟨-, hpay⟩ := mortgage_zero_rate
    ⟨some 1000, some 0, some 1, PaymentFrequency.acceleratedBiWeekly, some 1⟩
    rfl (by norm_num [safeNumber])
  refine ⟨?_, hper26, by norm_num⟩
  rw [hpay]
  show safeNumber (some (1000 : ℝ)) / ((periodsOf ⟨some 1000, some 0, some 1,
    PaymentFrequency.acceleratedBiWeekly, some 1⟩ : ℤ) : ℝ) / 2 = 1000 / 52
  rw [hper26]
  norm_num [safeNumber]

/-- Claim C7 (amended): with a zero annual rate and positive principal,
`totalInterestTerm` is 0 and the payment is `principal / periods` for the
four regular frequencies, `principal / periods / 2` for
accelerated-bi-weekly and `principal / periods / 4` for accelerated-weekly. -/
theorem claim_C7_thm (input : MortgageInputs)
    (hr : safeNumber input.interestRate = 0)
    (hp : 0 < safeNumber input.mortgageAmount) :
    (calculateMortgage input).totalInterestTerm = 0 ∧
    (calculateMortgage input).payment =
      (match input.paymentFrequency with
        | PaymentFrequency.acceleratedBiWeekly =>
            safeNumber input.mortgageAmount / ((periodsOf input : ℤ) : ℝ) / 2
        | PaymentFrequency.acceleratedWeekly =>
            safeNumber input.mortgageAmount / ((periodsOf input : ℤ) : ℝ) / 4
        | _ => safeNumber input.mortgageAmount / ((periodsOf input : ℤ) : ℝ)) :=
  mortgage_zero_rate input hr hp

/-- Witness for claim C7's amended theorem at a concrete monthly input. -/
theorem claim_C7_witness :
    (calculateMortgage ⟨some 100, some 0, some 25,
        PaymentFrequency.monthly, some 5⟩).totalInterestTerm = 0 ∧
    (calculateMortgage ⟨some 100, some 0, some 25,
        PaymentFrequency.monthly, some 5⟩).payment =
      (100 : ℝ) / ((periodsOf ⟨some 100, some 0, some 25,
        PaymentFrequency.monthly, some 5⟩ : ℤ) : ℝ) :=
  claim_C7_thm ⟨some 100, some 0, some 25, PaymentFrequency.monthly, some 5⟩
    rfl (by norm_num [safeNumber])

end RentalVerdict

namespace RentalVerdict

/-- Claim C8 evaluated at the failing input: principal 1000, annual rate
100 percent, amortization term 2 years and frequency accelerated-bi-weekly
give a full amortization length of 52 periods which the loop runs in full
(termPeriods = 52 = periods), yet the ending balance is still the whole
principal: the accelerated payment (half of the bi-weekly annuity payment)
is below the per-period interest, so the balance never decreases — it does
not reach 0 at or before the final period of the full amortization. -/
theorem claim_C8_eval :
    (calculateMortgage ⟨some 1000, some 100, some 2,
        PaymentFrequency.acceleratedBiWeekly, some 2⟩).balanceAfterTerm = 1000 ∧
    periodsOf ⟨some 1000, some 100, some 2,
        PaymentFrequency.acceleratedBiWeekly, some 2⟩ = 52 ∧
    termPeriodsOf ⟨some 1000, some 100, some 2,
        PaymentFrequency.acceleratedBiWeekly, some 2⟩ = 52 := by
  set input : MortgageInputs :=
    ⟨some 1000, some 100, some 2, PaymentFrequency.acceleratedBiWeekly, some 2⟩ with hinput
  have hper : periodsOf input = 52 := by
    refine periodsOf_concrete _ _ _ _ _ _ (by norm_num) ?_
    norm_num [paymentsPerYear, Int.floor_eq_iff]
  have hterm : termPeriodsOf input = 52 := by
    refine termPeriodsOf_concrete _ _ _ _ _ _ (by norm_num) ?_
    norm_num [paymentsPerYear, Int.floor_eq_iff]
  have hprin : principalOf input = 1000 := by
    unfold principalOf safeNumber
    simp only [Option.getD_some]
    exact max_eq_right (by norm_num)
  set X : ℝ := (3 / 2 : ℝ) ^ ((2 : ℝ) / 26) with hX
  have hX1 : 1 < X := by
    rw [hX]
    exact (Real.one_lt_rpow_iff_of_pos (by norm_num)).mpr (Or.inl ⟨by norm_num, by norm_num⟩)
  have hrate : rateOf input = X - 1 := by
    unfold rateOf periodicRate safeNumber paymentsPerYear
    simp only [Option.getD_some]
    rw [if_neg (by norm_num)]
    norm_num [hX]
  have hXpow : X ^ (-(52 : ℝ)) = 16 / 81 := by
    rw [hX, ← Real.rpow_mul (by norm_num : (0 : ℝ) ≤ 3 / 2)]
    rw [show (2 : ℝ) / 26 * -52 = ((-4 : ℤ) : ℝ) by norm_num]
    rw [Real.rpow_intCast]
    norm_num
  have hbase : basePaymentOf input = 1000 * (X - 1) / (65 / 81) := by
    unfold basePaymentOf
    rw [if_neg (by rw [hrate]; exact sub_ne_zero_of_ne hX1.ne'), hrate, hprin, hper]
    rw [show (1 : ℝ) + (X - 1) = X by ring]
    rw [show (-(((52 : ℤ) : ℝ))) = -(52 : ℝ) by norm_num]
    rw [hXpow]
    norm_num
  have hpay : paymentOf input = basePaymentOf input / 2 := rfl
  have hple : paymentOf input ≤ 1000 * rateOf input := by
    rw [hpay, hbase, hrate, div_div]
    rw [show (65 / 81 : ℝ) * 2 = 130 / 81 by norm_num]
    exact div_le_self (by nlinarith [hX1]) (by norm_num)
  have hpn0 : ¬ principalOf input = 0 := by
    rw [hprin]
    norm_num
  refine ⟨?_, hper, hterm⟩
  have hcalc : calculateMortgage input =
      ⟨paymentOf input,
        (amortRun (rateOf input) (paymentOf input) (principalOf input, 0)
          (termPeriodsOf input).toNat).2,
        (amortRun (rateOf input) (paymentOf input) (principalOf input, 0)
          (termPeriodsOf input).toNat).1⟩ := by
    unfold calculateMortgage
    rw [if_neg hpn0]
  rw [hcalc]
  show (amortRun (rateOf input) (paymentOf input) (principalOf input, 0)
    (termPeriodsOf input).toNat).1 = 1000
  rw [hprin]
  exact amortRun_fst_const (rateOf input) (paymentOf input) 1000 (by norm_num) hple _ _

end RentalVerdict

namespace RentalVerdict

/-- Claim C9: `calculateMortgage` is total and never signals an error:
replacing every non-finite (`none`) numeric field by the finite 0 that
`safeNumber` coerces it to leaves the result unchanged, and whenever the
mortgage amount is non-finite or at most 0 the result is all zeros. -/
theorem claim_C9 (input : MortgageInputs) :
    calculateMortgage input = calculateMortgage
      ⟨some (safeNumber input.mortgageAmount), some (safeNumber input.interestRate),
        some (safeNumber input.amortizationYears), input.paymentFrequency,
        some (safeNumber input.termYears)⟩ ∧
    ((input.mortgageAmount = none ∨ safeNumber input.mortgageAmount ≤ 0) →
      calculateMortgage input = ⟨0, 0, 0⟩) := by
  constructor
  · obtain ⟨ma, ir, ay, f, ty⟩ := input
    cases ma <;> cases ir <;> cases ay <;> cases ty <;> rfl
  · intro h
    have hs : safeNumber input.mortgageAmount ≤ 0 := by
      rcases h with h | h
      · rw [h]
        exact le_of_eq rfl
      · exact h
    have hp : principalOf input = 0 := max_eq_left hs
    unfold calculateMortgage
    rw [if_pos hp]

/-- Witness for claim C9 at a concrete input with a non-finite mortgage
amount. -/
theorem claim_C9_witness :
    calculateMortgage ⟨none, some 5, some 25, PaymentFrequency.monthly, some 5⟩ =
      calculateMortgage ⟨some (safeNumber (none : Option ℝ)), some (safeNumber (some (5:ℝ))),
        some (safeNumber (some (25:ℝ))), PaymentFrequency.monthly,
        some (safeNumber (some (5:ℝ)))⟩ ∧
    calculateMortgage ⟨none, some 5, some 25, PaymentFrequency.monthly, some 5⟩ =
      ⟨0, 0, 0⟩ :=
  ⟨(claim_C9 ⟨none, some 5, some 25, PaymentFrequency.monthly, some 5⟩).1,
    (claim_C9 ⟨none, some 5, some 25, PaymentFrequency.monthly, some 5⟩).2 (Or.inl rfl)⟩

/-- Claim C10: `calculateInvestment` returns the verdict Excellent exactly
when the cap rate (`noiAnnual / price` as a fraction, 0 when `price ≤ 0`)
is at least 0.045, Good exactly when it is at least 0.03 and below 0.045,
and Weak otherwise (exactly when it is below 0.03). -/
theorem claim_C10 (price : ℚ) (rentRange : RentRange) (expenses : ExpenseInputs)
    (mortgagePaymentAnnual : ℚ) :
    (calculateInvestment price rentRange expenses mortgagePaymentAnnual).capRate =
      (if 0 < price
        then (calculateInvestment price rentRange expenses mortgagePaymentAnnual).noiAnnual
          / price
        else 0) ∧
    ((calculateInvestment price rentRange expenses mortgagePaymentAnnual).verdict =
        Verdict.excellent ↔
      45 / 1000 ≤
        (calculateInvestment price rentRange expenses mortgagePaymentAnnual).capRate) ∧
    ((calculateInvestment price rentRange expenses mortgagePaymentAnnual).verdict =
        Verdict.good ↔
      3 / 100 ≤
          (calculateInvestment price rentRange expenses mortgagePaymentAnnual).capRate ∧
        (calculateInvestment price rentRange expenses mortgagePaymentAnnual).capRate <
          45 / 1000) ∧
    ((calculateInvestment price rentRange expenses mortgagePaymentAnnual).verdict =
        Verdict.weak ↔
      (calculateInvestment price rentRange expenses mortgagePaymentAnnual).capRate <
        3 / 100) := by
  set m := calculateInvestment price rentRange expenses mortgagePaymentAnnual with hm
  have hcap : m.capRate = if 0 < price then m.noiAnnual / price else 0 := rfl
  have hv : m.verdict = if 45 / 1000 ≤ m.capRate then Verdict.excellent
      else if 3 / 100 ≤ m.capRate then Verdict.good else Verdict.weak := rfl
  refine ⟨hcap, ?_, ?_, ?_⟩ <;> rw [hv]
  · by_cases h1 : (45 / 1000 : ℚ) ≤ m.capRate
    · rw [if_pos h1]
      simp [h1]
    · rw [if_neg h1]
      by_cases h2 : (3 / 100 : ℚ) ≤ m.capRate <;> simp [h1, h2]
  · by_cases h1 : (45 / 1000 : ℚ) ≤ m.capRate
    · rw [if_pos h1]
      constructor
      · intro h
        cases h
      · intro h
        exact absurd h1 (not_le.mpr h.2)
    · rw [if_neg h1]
      by_cases h2 : (3 / 100 : ℚ) ≤ m.capRate
      · rw [if_pos h2]
        exact ⟨fun _ => ⟨h2, not_le.mp h1⟩, fun _ => rfl⟩
      · rw [if_neg h2]
        constructor
        · intro h
          cases h
        · intro h
          exact absurd h.1 h2
  · by_cases h1 : (45 / 1000 : ℚ) ≤ m.capRate
    · rw [if_pos h1]
      constructor
      · intro h
        cases h
      · intro h
        exact absurd (lt_of_lt_of_le (by norm_num) h1) (not_lt.mpr h.le)
    · rw [if_neg h1]
      by_cases h2 : (3 / 100 : ℚ) ≤ m.capRate
      · rw [if_pos h2]
        constructor
        · intro h
          cases h
        · intro h
          exact absurd h2 (not_le.mpr h)
      · rw [if_neg h2]
        exact ⟨fun _ => not_le.mp h2, fun _ => rfl⟩

end RentalVerdict
